import Mathlib

/-!
# Verification of the locust launcher (`locust/main.py`)

A shallow embedding of the discovery-and-bootstrap launcher:

* the `sys.path` bookkeeping performed by `load_locustfile`,
* the scenario-discovery predicate `is_locust` and the catalog builder,
* the locustfile resolution algorithm `find_locustfile` (with `_is_package`),
* the control flow of `main` (version/list short-circuits, scenario
  validation, web/runner/hatching/stats dispatch, the final wait and exit),
  rendered as a trace of observable events.

Paths are modelled as lists of components measured from the filesystem
root (`["proj", "tests"]` stands for `/proj/tests`); `sys.path` is a list
of directory strings, exactly as in CPython.
-/

namespace Locust

/-! ### String primitives

Python's `str.endswith`, `str.startswith` and `in` tests, computed on the
string's character list (so that concrete instances evaluate in the kernel). -/

/-- `s.endswith(suffix)`. -/
def strEndsWith (s suffix : String) : Bool := suffix.data.isSuffixOf s.data

/-- `s.startswith(pre)`. -/
def strStartsWith (s pre : String) : Bool := pre.data.isPrefixOf s.data

/-- `c in s` for a single character. -/
def strContainsChar (s : String) (c : Char) : Bool := s.data.contains c

/-! ## Isolated loader: the `sys.path` effect of `load_locustfile`

`load_locustfile(path)` splits `path` into `(directory, locustfile)` and then
manipulates the process-wide `sys.path` list around the `__import__` call.
Only the list manipulation is modelled; the import itself is abstracted to a
boolean `importRaises` saying whether `__import__` raised.  The source has no
`try`/`finally`: when the import raises, the restoration code after it never
runs and the exception propagates with `sys.path` still mutated. -/

/-- The pre-import mutation of `sys.path` performed by `load_locustfile`
(lines 215–230 of `main.py`).  Returns the mutated list together with the
bookkeeping variables `added_to_path` and `index`:

* if `directory` is absent, it is inserted at the front (`added_to_path = True`);
* else if present at position `i ≠ 0`, it is inserted at the front and the
  old occurrence (now at `i + 1`) is deleted (`index = i` remembered);
* else (already at the front) nothing happens. -/
def load_sysPath_mutate (directory : String) (sysPath : List String) :
    List String × Bool × Option Nat :=
  if directory ∈ sysPath then
    let i := sysPath.indexOf directory
    if i ≠ 0 then
      ((directory :: sysPath).eraseIdx (i + 1), false, some i)
    else
      (sysPath, false, none)
  else
    (directory :: sysPath, true, none)

/-- The post-import restoration of `sys.path` (lines 233–239 of `main.py`):
`if added_to_path: del sys.path[0]`, then
`if index is not None: sys.path.insert(index + 1, directory); del sys.path[0]`. -/
def load_sysPath_unwind (directory : String) (added : Bool) (index : Option Nat)
    (p : List String) : List String :=
  let p1 := if added then p.eraseIdx 0 else p
  match index with
  | some i => ((p1.insertIdx (i + 1) directory)).eraseIdx 0
  | none => p1

/-- The value of `sys.path` observed after `load_locustfile` finishes — or,
when `importRaises = true`, after its exception propagates to the caller.
In the source the restoration code sits *after* the `__import__` call with no
`try`/`finally`, so on the raising path the mutated list is what remains. -/
def load_locustfile_sysPath (directory : String) (importRaises : Bool)
    (sysPath : List String) : List String :=
  let m := load_sysPath_mutate directory sysPath
  if importRaises then m.1
  else load_sysPath_unwind directory m.2.1 m.2.2 m.1

/-! ## Scenario discoverer: `is_locust` and the catalog -/

/-- A Python value as far as `is_locust` can observe it: whether
`inspect.isclass` holds, whether `issubclass(·, Locust)` holds, and a class
name standing in for object identity (used by the `item not in _internals`
membership test). -/
structure PyValue where
  isClass : Bool
  isLocustSubclass : Bool
  className : String
  deriving DecidableEq

/-- `_internals = []` — the harness's internal-class exclusion list is the
empty list in the source (line 13 of `main.py`). -/
def _internals : List PyValue := []

/-- `is_locust((name, item))` (lines 191–201 of `main.py`): `item` is a class,
a subclass of `Locust`, not a member of `_internals`, and `name` does not
start with an underscore. -/
def is_locust (tup : String × PyValue) : Bool :=
  tup.2.isClass
    && tup.2.isLocustSubclass
    && decide (tup.2 ∉ _internals)
    && !(strStartsWith tup.1 "_")

/-- The catalog construction of `load_locustfile` (line 241 of `main.py`):
`dict(filter(is_locust, vars(imported).items()))`, with the module's
declarations given as an association list. -/
def discover (decls : List (String × PyValue)) : List (String × PyValue) :=
  decls.filter is_locust

/-- The `Locust` base class itself, as `is_locust` sees it: it is a class, and
Python's `issubclass(Locust, Locust)` is `True`. -/
def locustBaseClass : PyValue := ⟨true, true, "Locust"⟩

/-- A user-defined public `Locust` subclass named `Foo`. -/
def fooClass : PyValue := ⟨true, true, "Foo"⟩

/-- A user-defined `Locust` subclass with a private name `_Bar`. -/
def barClass : PyValue := ⟨true, true, "_Bar"⟩

/-- The loaded module of the discovery scenario: declarations
`{Foo: <scenario subclass>, _Bar: <scenario subclass>, Base: Locust}`. -/
def demoModule : List (String × PyValue) :=
  [("Foo", fooClass), ("_Bar", barClass), ("Base", locustBaseClass)]

/-! ## Path resolver: `_is_package` and `find_locustfile`

The filesystem is abstracted to two boolean observations (`os.path.exists`
and `os.path.isdir`) on absolute paths given as component lists, plus the
user's home directory for `os.path.expanduser`. -/

/-- The filesystem as `find_locustfile` observes it. -/
structure FS where
  pathExists : List String → Bool
  isDir : List String → Bool
  home : List String

/-- `_is_package(path)` (lines 149–156 of `main.py`): the path is a directory
and contains an `__init__.py`. -/
def _is_package (fs : FS) (p : List String) : Bool :=
  fs.isDir p && fs.pathExists (p ++ ["__init__.py"])

/-- The candidate-name list of `find_locustfile` (lines 164–167):
`names = [locustfile]`, plus `locustfile + '.py'` when the name does not
already end in `.py`. -/
def locustNames (locustfile : String) : List String :=
  if strEndsWith locustfile ".py" then [locustfile]
  else [locustfile, locustfile ++ ".py"]

/-- The test that selects the explicit-path mode (line 169):
`os.path.dirname(names[0])` is non-empty, i.e. the requested name contains a
path separator. -/
def hasDirname (s : String) : Bool := strContainsChar s '/'

/-- Resolve `.` and `..` components against a base absolute path, as
`os.path.abspath` does (`..` at the root stays at the root). -/
def normAppend (base : List String) : List String → List String
  | [] => base
  | c :: rest =>
    if c = "." then normAppend base rest
    else if c = ".." then normAppend base.dropLast rest
    else normAppend (base ++ [c]) rest

/-- The non-empty, non-`.`-trivial components of a path string. -/
def pathComponents (s : String) : List String :=
  (s.splitOn "/").filter (fun c => c ≠ "")

/-- `os.path.expanduser` followed by taking components: a leading `~` (alone
or before `/`) is replaced by the home directory, yielding an absolute path;
otherwise the string is split, and absoluteness is a leading `/`.  (Expansion
of another user's `~name` is not modelled and left literal.) -/
def expanduserComponents (home : List String) (s : String) : Bool × List String :=
  if s = "~" || strStartsWith s "~/" then
    (true, home ++ pathComponents (s.drop 1))
  else
    (strStartsWith s "/", pathComponents s)

/-- `os.path.abspath` of an expanded name: absolute paths are normalized from
the root, relative ones against the current working directory. -/
def abspathOf (cwd : List String) (isAbs : Bool) (comps : List String) :
    List String :=
  if isAbs then normAppend [] comps else normAppend cwd comps

/-- The explicit-path mode of `find_locustfile` (lines 170–175): for each
candidate name, expand `~`, test existence, and accept when the name ends in
`.py` or the path is a package; the first accepted candidate's absolute path
is returned. -/
def findExplicit (fs : FS) (cwd : List String) : List String → Option (List String)
  | [] => none
  | name :: rest =>
    let e := expanduserComponents fs.home name
    let expanded := abspathOf cwd e.1 e.2
    if fs.pathExists expanded && (strEndsWith name ".py" || _is_package fs expanded)
    then some expanded
    else findExplicit fs cwd rest

/-- The inner `for name in names` loop of the bare-name mode (lines 182–186),
probing directory `d`: `joined = os.path.join(path, name)` is `d ++ [name]`
in absolute components; a candidate is accepted when it exists and either the
name ends in `.py` or the candidate is a package. -/
def tryNames (fs : FS) (d : List String) : List String → Option (List String)
  | [] => none
  | name :: rest =>
    if fs.pathExists (d ++ [name]) && (strEndsWith name ".py" || _is_package fs (d ++ [name]))
    then some (d ++ [name])
    else tryNames fs d rest

/-- The `while os.path.split(os.path.abspath(path))[1]:` loop of
`find_locustfile` (lines 177–187).  The loop variable `path` is `'.'`,
`'../.'`, `'../../.'`, …, whose absolute forms are `d`, `d.dropLast`, …; the
loop guard — the last component of the absolute path is non-empty — fails
exactly when the ascent reaches the filesystem root, i.e. when the component
list is empty.  Each iteration probes the current directory with `tryNames`
and then ascends one level. -/
def searchUpLoop (fs : FS) (names : List String) (d : List String) :
    Option (List String) :=
  if h : d = [] then none
  else
    Option.orElse (tryNames fs d names) (fun _ => searchUpLoop fs names d.dropLast)
termination_by d.length
decreasing_by
  simp only [List.length_dropLast]
  have : d.length ≠ 0 := fun hl => h (List.length_eq_zero.mp hl)
  omega

/-- `find_locustfile(locustfile)` (lines 159–188), with the process's current
working directory `cwd` made explicit: explicit-path mode when the name
contains a path separator, otherwise the ancestor-walking search from `cwd`. -/
def find_locustfile (fs : FS) (cwd : List String) (locustfile : String) :
    Option (List String) :=
  let names := locustNames locustfile
  if hasDirname locustfile then findExplicit fs cwd names
  else searchUpLoop fs names cwd

/-- The directories probed by the bare-name loop, nearest first: the chain
`d`, `d.dropLast`, … of non-empty ancestors (fuelled structural recursion so
that concrete instances evaluate). -/
def ancestorDirsAux : Nat → List String → List (List String)
  | 0, _ => []
  | k + 1, d => if d = [] then [] else d :: ancestorDirsAux k d.dropLast

/-- The directories probed by the bare-name loop from directory `d`. -/
def ancestorDirs (d : List String) : List (List String) :=
  ancestorDirsAux d.length d

/-- A resolution candidate: the name tried together with the absolute path it
denotes at a given directory. -/
def candidates (names : List String) (cwd : List String) :
    List (String × List String) :=
  (ancestorDirs cwd).flatMap (fun d => names.map (fun nm => (nm, d ++ [nm])))

/-- Acceptance of a candidate `(name, path)`: it exists, and the name ends in
`.py` or the path is a package — the test applied at every probe of
`find_locustfile`. -/
def candidateProbe (fs : FS) (p : String × List String) : Bool :=
  fs.pathExists p.2 && (strEndsWith p.1 ".py" || _is_package fs p.2)

/-! ## Option surface and the `main` control flow

`parse_options` (lines 27–146) yields an options record; the fields below
mirror its `dest` names and defaults.  `main` (lines 244–301) is rendered as
the list of observable events it performs, in order.  The results of
`find_locustfile` and `load_locustfile` are passed in as parameters (`found`,
`locusts`), standing for the values those calls return; `interrupted` says
whether a `KeyboardInterrupt` arrives during the final `gevent.sleep`. -/

/-- The parsed command-line options.  Defaults (see `defaultOptions`) are the
ones declared in `parse_options`.  Note that `shortlist` is parsed with help
text "print non-verbose list of possible commands and exit" but is never read
anywhere in `main`. -/
structure Options where
  show_version : Bool
  list_commands : Bool
  shortlist : Bool
  print_stats : Bool
  no_web : Bool
  master : Bool
  slave : Bool
  num_clients : Int
  hatch_rate : Int
  redis_host : String
  redis_port : Int
  hosts : List String
  locustfile : String

/-- The defaults declared in `parse_options`. -/
def defaultOptions : Options :=
  { show_version := false
    list_commands := false
    shortlist := false
    print_stats := false
    no_web := false
    master := false
    slave := false
    num_clients := 1
    hatch_rate := 1
    redis_host := "localhost"
    redis_port := 6379
    hosts := []
    locustfile := "locust" }

/-- The kind of wait performed after runner construction: the source performs
a timed `gevent.sleep(100000)`; `forever` is the unbounded wait the
specification describes, named here so the two can be compared. -/
inductive WaitKind where
  | forever
  | timed (seconds : Nat)
  deriving DecidableEq

/-- The observable events of one run of `main`, in program order.
`constructLocal`/`constructMaster`/`constructSlave` are the three runner
constructions; `indexError` is the uncaught `IndexError` raised by
`arguments[0]` on an empty argument list; `exitCode n` is `sys.exit(n)`. -/
inductive Event where
  | printVersion
  | printNoLocustfile
  | printList (names : List String)
  | printUnknown (name : String)
  | indexError
  | spawnWeb
  | constructLocal
  | constructMaster
  | constructSlave
  | startHatching
  | spawnStats
  | wait (k : WaitKind)
  | printFarewell
  | exitCode (n : Nat)
  deriving DecidableEq

/-- The names of a catalog, i.e. `locusts.keys()`. -/
def catalogNames (locusts : List (String × PyValue)) : List String :=
  locusts.map Prod.fst

/-- The event trace of `main` (lines 244–301 of `main.py`):

1. `-V` prints the version and exits `0`;
2. a failed `find_locustfile` prints a diagnostic and exits `1`;
3. `-l` prints the catalog names and exits `0` (`options.shortlist` is never
   consulted);
4. `arguments[0]` is read — an empty argument list raises `IndexError`;
5. an unknown scenario name goes to stderr and exits `1`;
6. the web greenlet is spawned unless `--no-web` or `--slave`;
7. exactly one runner is constructed: local when neither `--master` nor
   `--slave` (with immediate hatching under `--no-web`, and the stats
   greenlet when `--print-stats` or `--no-web`), else master when
   `--master`, else slave;
8. `gevent.sleep(100000)`, a `KeyboardInterrupt` during it printing the
   farewell; then `sys.exit(0)`. -/
def mainTrace (o : Options) (args : List String) (found : Option (List String))
    (locusts : List (String × PyValue)) (interrupted : Bool) : List Event :=
  if o.show_version then [.printVersion, .exitCode 0]
  else
    match found with
    | none => [.printNoLocustfile, .exitCode 1]
    | some _ =>
      if o.list_commands then [.printList (catalogNames locusts), .exitCode 0]
      else
        match args with
        | [] => [.indexError]
        | a :: _ =>
          if !(catalogNames locusts).contains a then
            [.printUnknown a, .exitCode 1]
          else
            (if !o.no_web && !o.slave then [.spawnWeb] else []) ++
            (if !o.master && !o.slave then
              [.constructLocal]
                ++ (if o.no_web then [.startHatching] else [])
                ++ (if o.print_stats || o.no_web then [.spawnStats] else [])
             else if o.master then [.constructMaster]
             else if o.slave then [.constructSlave]
             else []) ++
            [.wait (.timed 100000)] ++
            (if interrupted then [.printFarewell] else []) ++
            [.exitCode 0]

/-! ## Helper lemmas: characterizing the resolver as a first-match search -/

/-- The inner name loop at directory `d` returns the first accepted candidate
among `(nm, d ++ [nm])` for `nm` in `names`. -/
theorem tryNames_eq_find? (fs : FS) (d : List String) (names : List String) :
    tryNames fs d names =
      ((names.map (fun nm => (nm, d ++ [nm]))).find? (candidateProbe fs)).map Prod.snd := by
  induction names with
  | nil => rfl
  | cons nm rest ih =>
    by_cases hp : candidateProbe fs (nm, d ++ [nm]) = true
    · have hp' : (fs.pathExists (d ++ [nm])
          && (strEndsWith nm ".py" || _is_package fs (d ++ [nm]))) = true := hp
      simp [tryNames, hp', List.find?_cons_of_pos _ hp]
    · have hp' : ¬ ((fs.pathExists (d ++ [nm])
          && (strEndsWith nm ".py" || _is_package fs (d ++ [nm]))) = true) := hp
      simp only [tryNames, List.map_cons]
      rw [if_neg hp', List.find?_cons_of_neg _ hp, ih]

/-- Unfolding of the fuelled ancestor enumeration at a non-root directory. -/
theorem ancestorDirsAux_cons (k : Nat) (d : List String) (hd : d ≠ []) :
    ancestorDirsAux (k + 1) d = d :: ancestorDirsAux k d.dropLast := by
  simp [ancestorDirsAux, hd]

/-- The ancestor-walking loop equals a first-success search over the fuelled
ancestor enumeration, for any sufficient fuel. -/
theorem searchUpLoop_eq_aux (fs : FS) (names : List String) :
    ∀ (fuel : Nat) (d : List String), d.length ≤ fuel →
      searchUpLoop fs names d =
        (ancestorDirsAux fuel d).findSome? (fun dir => tryNames fs dir names) := by
  intro fuel
  induction fuel with
  | zero =>
    intro d hd
    have hnil : d = [] := List.length_eq_zero.mp (Nat.le_zero.mp hd)
    subst hnil
    rw [searchUpLoop]
    rfl
  | succ k ih =>
    intro d hd
    rw [searchUpLoop]
    by_cases h : d = []
    · subst h; rfl
    · rw [dif_neg h, ancestorDirsAux_cons k d h, List.findSome?_cons]
      cases htry : tryNames fs d names with
      | some r => simp [Option.orElse, htry]
      | none =>
        have hlen : d.dropLast.length ≤ k := by
          have h1 : d.length ≠ 0 := fun hl => h (List.length_eq_zero.mp hl)
          simp only [List.length_dropLast]
          omega
        simp [Option.orElse, htry, ih d.dropLast hlen]

/-- The ancestor-walking loop equals a first-success search over the
non-empty ancestors of the starting directory. -/
theorem searchUpLoop_eq (fs : FS) (names : List String) (d : List String) :
    searchUpLoop fs names d =
      (ancestorDirs d).findSome? (fun dir => tryNames fs dir names) :=
  searchUpLoop_eq_aux fs names d.length d (Nat.le_refl _)

/-- `find?` followed by a projection is a `findSome?` with a guard. -/
theorem map_find?_eq_findSome? {α β : Type} (l : List α) (p : α → Bool) (g : α → β) :
    (l.find? p).map g = l.findSome? (fun x => if p x then some (g x) else none) := by
  induction l with
  | nil => rfl
  | cons a rest ih =>
    by_cases hp : p a = true
    · rw [List.find?_cons_of_pos _ hp, List.findSome?_cons]
      simp [hp]
    · rw [List.find?_cons_of_neg _ hp, List.findSome?_cons, ih]
      simp [hp]

/-- First-success search distributes over `flatMap`. -/
theorem findSome?_flatMap {α β γ : Type} (l : List α) (f : α → List β) (g : β → Option γ) :
    (l.flatMap f).findSome? g = l.findSome? (fun a => (f a).findSome? g) := by
  induction l with
  | nil => rfl
  | cons a rest ih =>
    rw [List.flatMap_cons, List.findSome?_append, List.findSome?_cons]
    cases hfa : (f a).findSome? g with
    | some r => simp
    | none => simp [ih]

/-- The bare-name resolution equals the first accepted candidate of the
ordered candidate list: nearest directory first, and within each directory
the bare name before the `.py`-suffixed name. -/
theorem find_locustfile_eq_candidates (fs : FS) (cwd : List String) (n : String)
    (hbare : strContainsChar n '/' = false) :
    find_locustfile fs cwd n =
      ((candidates (locustNames n) cwd).find? (candidateProbe fs)).map Prod.snd := by
  unfold find_locustfile
  have hdn : hasDirname n = false := hbare
  rw [hdn]
  simp only [Bool.false_eq_true, if_false]
  rw [searchUpLoop_eq, candidates, map_find?_eq_findSome?, findSome?_flatMap]
  congr 1
  funext dir
  rw [tryNames_eq_find?, map_find?_eq_findSome?]

/-- Reinserting at the index an element was erased from restores the list. -/
theorem insertIdx_eraseIdx_self (a : String) :
    ∀ (l : List String) (i : Nat), l[i]? = some a →
      (l.eraseIdx i).insertIdx i a = l := by
  intro l
  induction l with
  | nil => intro i h; simp at h
  | cons x t ih =>
    intro i h
    cases i with
    | zero =>
      simp only [List.getElem?_cons_zero, Option.some.injEq] at h
      simp [h]
    | succ j =>
      simp only [List.getElem?_cons_succ] at h
      simp [List.eraseIdx_cons_succ, List.insertIdx_succ_cons, ih j h]

/-- On the successful-import path, `load_locustfile` restores `sys.path`
exactly, in all three starting conditions (directory absent, present at the
front, present elsewhere). -/
theorem load_restores_on_success (directory : String) (sysPath : List String) :
    load_locustfile_sysPath directory false sysPath = sysPath := by
  unfold load_locustfile_sysPath load_sysPath_mutate load_sysPath_unwind
  by_cases hmem : directory ∈ sysPath
  · by_cases hi : sysPath.indexOf directory = 0
    · simp [hmem, hi]
    · simp only [hmem, if_true, hi, ite_not, if_neg hi, Bool.false_eq_true,
        if_false, List.eraseIdx_cons_succ, List.insertIdx_succ_cons,
        List.eraseIdx_cons_zero]
      exact insertIdx_eraseIdx_self directory sysPath (sysPath.indexOf directory)
        (List.getElem?_indexOf hmem)
  · simp [hmem]

/-- C1: the claim says `sys.path` is element-for-element identical after
`load_locustfile` finishes *or after its error propagates*, in both the
"directory absent" and "directory present but not at front" starting
conditions.  The source restores only on the success path (no
`try`/`finally`), so on a raising import the mutated list survives: with
`sys.path = ["lib"]` and directory `/proj` absent, the error leaves
`["/proj", "lib"]`; with `sys.path = ["lib", "/proj", "x"]` (present, not at
front) it leaves `["/proj", "lib", "x"]`. -/
theorem C1_load_raise_leaves_sysPath_mutated :
    (load_locustfile_sysPath "/proj" true ["lib"] = ["/proj", "lib"]
      ∧ load_locustfile_sysPath "/proj" true ["lib"] ≠ ["lib"])
    ∧ (load_locustfile_sysPath "/proj" true ["lib", "/proj", "x"]
          = ["/proj", "lib", "x"]
      ∧ load_locustfile_sysPath "/proj" true ["lib", "/proj", "x"]
          ≠ ["lib", "/proj", "x"]) := by
  decide

/-- C2: the claim says the catalog of a module declaring
`{Foo: <scenario subclass>, _Bar: <scenario subclass>, Base: Locust}`
contains only `Foo`.  Because `_internals` is the empty list in the source,
the `item not in _internals` conjunct of `is_locust` excludes nothing, and
the base class (for which Python's `issubclass(Locust, Locust)` is true)
passes the predicate under the public name `Base`: the catalog is
`{Foo, Base}`, not `{Foo}`. -/
theorem C2_base_class_not_excluded :
    discover demoModule = [("Foo", fooClass), ("Base", locustBaseClass)]
      ∧ discover demoModule ≠ [("Foo", fooClass)] := by
  decide

/-- The filesystem of the resolution scenario: `/proj/tasks.py` exists,
`/proj/tests/tasks.py` does not, and nothing is a package directory. -/
def projFS : FS :=
  { pathExists := fun p => p == ["proj", "tasks.py"]
    isDir := fun _ => false
    home := [] }

/-- A filesystem on which nothing exists. -/
def emptyFS : FS :=
  { pathExists := fun _ => false
    isDir := fun _ => false
    home := [] }

/-- C5: for a separator-free name, resolution started in directory `D`
returns the first accepted candidate of the ordered candidate list — the
non-empty ancestors of `D` nearest-first (so `D` before any ancestor), and
within each directory the bare name before the `.py`-suffixed name (the
order `locustNames` builds); in particular resolving `"tasks"` from
`/proj/tests` with `/proj/tests/tasks.py` absent but `/proj/tasks.py`
present returns `/proj/tasks.py`. -/
theorem C5_resolution_order :
    (∀ (fs : FS) (cwd : List String) (n : String),
        strContainsChar n '/' = false →
        find_locustfile fs cwd n =
          ((candidates (locustNames n) cwd).find? (candidateProbe fs)).map Prod.snd)
    ∧ find_locustfile projFS ["proj", "tests"] "tasks" = some ["proj", "tasks.py"] := by
  refine ⟨fun fs cwd n h => find_locustfile_eq_candidates fs cwd n h, ?_⟩
  rw [find_locustfile_eq_candidates projFS ["proj", "tests"] "tasks" (by decide)]
  decide

/-- Witness for C5 at the concrete scenario input. -/
theorem C5_resolution_order_witness :
    find_locustfile projFS ["proj", "tests"] "tasks" =
      ((candidates (locustNames "tasks") ["proj", "tests"]).find?
        (candidateProbe projFS)).map Prod.snd :=
  C5_resolution_order.1 projFS ["proj", "tests"] "tasks" (by decide)

/-- C6: the ancestor-walking loop stops when the ascent reaches the
filesystem root (the empty component list — where `os.path.split` of the
absolute path yields an empty last component), returning `none`; hence for a
separator-free name whose probes all fail, `find_locustfile` returns the
not-found signal rather than looping (the loop is a total function, its
termination measured by the directory depth). -/
theorem C6_terminates_at_root :
    (∀ (fs : FS) (names : List String), searchUpLoop fs names [] = none)
    ∧ (∀ (fs : FS) (cwd : List String) (n : String),
        strContainsChar n '/' = false →
        (∀ d ∈ ancestorDirs cwd, tryNames fs d (locustNames n) = none) →
        find_locustfile fs cwd n = none) := by
  constructor
  · intro fs names
    rw [searchUpLoop]
    rfl
  · intro fs cwd n hbare hall
    unfold find_locustfile
    have hdn : hasDirname n = false := hbare
    rw [hdn]
    simp only [Bool.false_eq_true, if_false]
    rw [searchUpLoop_eq]
    exact List.findSome?_eq_none_iff.mpr hall

/-- Witness for C6: on a filesystem where nothing exists, resolution from
`/proj/tests` returns the not-found signal. -/
theorem C6_terminates_at_root_witness :
    find_locustfile emptyFS ["proj", "tests"] "tasks" = none :=
  C6_terminates_at_root.2 emptyFS ["proj", "tests"] "tasks" (by decide) (by decide)

/-! ## Launch scenarios -/

/-- The catalog of the launch scenarios: the single public scenario `Foo`. -/
def demoLocusts : List (String × PyValue) := [("Foo", fooClass)]

/-- A resolved locustfile path used by the launch scenarios. -/
def demoPath : List String := ["proj", "tasks.py"]

/-- C3 counterexample: with both `--master` and `--slave` set (and an
otherwise valid invocation) no validation error is emitted — the run goes
straight to constructing the master runner and later exits `0`. -/
theorem C3_both_flags_counterexample :
    mainTrace { defaultOptions with master := true, slave := true } ["Foo"]
        (some demoPath) demoLocusts false
      = [.constructMaster, .wait (.timed 100000), .exitCode 0] := by
  decide

/-- C3 (amended): when both `--master` and `--slave` are set, the launcher
does not reject the combination; `--master` takes precedence in the
`elif` chain, the master runner is constructed (and, `--slave` disabling the
web greenlet, no web monitor starts), and the run proceeds to the wait and a
zero exit. -/
theorem C3_master_takes_precedence (o : Options) (a : String) (rest : List String)
    (p : List String) (locusts : List (String × PyValue)) (i : Bool)
    (hm : o.master = true) (hs : o.slave = true)
    (hv : o.show_version = false) (hl : o.list_commands = false)
    (ha : (catalogNames locusts).contains a = true) :
    mainTrace o (a :: rest) (some p) locusts i =
      [.constructMaster, .wait (.timed 100000)]
        ++ (if i then [.printFarewell] else []) ++ [.exitCode 0] := by
  have ha' : a ∈ catalogNames locusts := by simpa using ha
  simp [mainTrace, hm, hs, hv, hl, ha']

/-- Witness for the amended C3 at a concrete invocation. -/
theorem C3_master_takes_precedence_witness :
    mainTrace { defaultOptions with master := true, slave := true } ["Foo"]
        (some demoPath) demoLocusts true
      = [.constructMaster, .wait (.timed 100000)]
          ++ (if true then [.printFarewell] else []) ++ [.exitCode 0] :=
  C3_master_takes_precedence _ "Foo" [] demoPath demoLocusts true
    rfl rfl rfl rfl (by decide)

/-- C4: the claim says both "no positional scenario argument" and "unknown
scenario name" yield a short diagnostic and a non-zero exit, never a raw
crash.  The unknown-name half holds (stderr line, exit `1`), but with an
empty argument list `main` evaluates `arguments[0]` before any check and an
uncaught `IndexError` propagates — a crash dump, not a diagnostic. -/
theorem C4_empty_arguments_crash :
    mainTrace defaultOptions [] (some demoPath) demoLocusts false = [.indexError]
      ∧ mainTrace defaultOptions ["Bogus"] (some demoPath) demoLocusts false
          = [.printUnknown "Bogus", .exitCode 1] := by
  decide

/-- C7: in a standalone invocation with `--no-web`, the web greenlet is not
spawned, hatching is triggered immediately after the local runner is
constructed (no external trigger intervenes between the two events), and the
stats-printing greenlet is spawned even when `--print-stats` is absent
(`options.print_stats or options.no_web` holds). -/
theorem C7_no_web_standalone (o : Options) (a : String) (rest : List String)
    (p : List String) (locusts : List (String × PyValue)) (i : Bool)
    (hv : o.show_version = false) (hl : o.list_commands = false)
    (hw : o.no_web = true) (hm : o.master = false) (hs : o.slave = false)
    (ha : (catalogNames locusts).contains a = true) :
    mainTrace o (a :: rest) (some p) locusts i =
      [.constructLocal, .startHatching, .spawnStats, .wait (.timed 100000)]
        ++ (if i then [.printFarewell] else []) ++ [.exitCode 0]
    ∧ Event.spawnWeb ∉ mainTrace o (a :: rest) (some p) locusts i := by
  have ht : mainTrace o (a :: rest) (some p) locusts i =
      [.constructLocal, .startHatching, .spawnStats, .wait (.timed 100000)]
        ++ (if i then [.printFarewell] else []) ++ [.exitCode 0] := by
    have ha' : a ∈ catalogNames locusts := by simpa using ha
    simp [mainTrace, hv, hl, hw, hm, hs, ha']
  refine ⟨ht, ?_⟩
  rw [ht]
  cases i <;> decide

/-- Witness for C7 at a concrete invocation. -/
theorem C7_no_web_standalone_witness :
    mainTrace { defaultOptions with no_web := true } ["Foo"]
        (some demoPath) demoLocusts false
      = [.constructLocal, .startHatching, .spawnStats, .wait (.timed 100000)]
          ++ (if false then [.printFarewell] else []) ++ [.exitCode 0]
    ∧ Event.spawnWeb ∉ mainTrace { defaultOptions with no_web := true } ["Foo"]
        (some demoPath) demoLocusts false :=
  C7_no_web_standalone _ "Foo" [] demoPath demoLocusts false
    rfl rfl rfl rfl rfl (by decide)

/-- C8 counterexample: the claim says the post-construction wait is
indefinite with no timeout.  The source performs `gevent.sleep(100000)` — a
finite, timed wait: the trace of a standard interrupted run contains the
timed 100000-second wait and no unbounded wait. -/
theorem C8_wait_is_timed_counterexample :
    Event.wait WaitKind.forever
        ∉ mainTrace defaultOptions ["Foo"] (some demoPath) demoLocusts true
      ∧ Event.wait (WaitKind.timed 100000)
          ∈ mainTrace defaultOptions ["Foo"] (some demoPath) demoLocusts true := by
  decide

/-- C8 (amended): under every topology, after runner construction the
process performs a single timed `gevent.sleep(100000)` (not an unbounded
wait), and a `KeyboardInterrupt` arriving during that sleep prints the
farewell text and the process exits with status `0`. -/
theorem C8_timed_wait_interrupt (o : Options) (a : String) (rest : List String)
    (p : List String) (locusts : List (String × PyValue))
    (hv : o.show_version = false) (hl : o.list_commands = false)
    (ha : (catalogNames locusts).contains a = true) :
    mainTrace o (a :: rest) (some p) locusts true =
      (if !o.no_web && !o.slave then [Event.spawnWeb] else []) ++
      (if !o.master && !o.slave then
        [Event.constructLocal]
          ++ (if o.no_web then [Event.startHatching] else [])
          ++ (if o.print_stats || o.no_web then [Event.spawnStats] else [])
       else if o.master then [Event.constructMaster]
       else if o.slave then [Event.constructSlave]
       else []) ++
      [Event.wait (.timed 100000), Event.printFarewell, Event.exitCode 0] := by
  have ha' : a ∈ catalogNames locusts := by simpa using ha
  simp [mainTrace, hv, hl, ha', List.append_assoc]

/-- Witness for the amended C8 at a concrete interrupted standalone run. -/
theorem C8_timed_wait_interrupt_witness :
    mainTrace defaultOptions ["Foo"] (some demoPath) demoLocusts true =
      [Event.spawnWeb, Event.constructLocal, Event.wait (.timed 100000),
        Event.printFarewell, Event.exitCode 0] := by
  have h := C8_timed_wait_interrupt defaultOptions "Foo" [] demoPath demoLocusts
    rfl rfl (by decide)
  rw [h]
  decide

/-- C9: the claim says both `-l` (`--list`) and `--shortlist` short-circuit to a
listing and a zero exit.  `--list` does; but `options.shortlist`, though
parsed with help text "print non-verbose list of possible commands and
exit", is never read in `main`: with `--shortlist` set the run does not list
or exit — it spawns the web greenlet, constructs the local runner and waits. -/
theorem C9_shortlist_ignored :
    mainTrace { defaultOptions with shortlist := true } ["Foo"]
        (some demoPath) demoLocusts false
      = [.spawnWeb, .constructLocal, .wait (.timed 100000), .exitCode 0]
    ∧ mainTrace { defaultOptions with list_commands := true } ["Foo"]
        (some demoPath) demoLocusts false
      = [.printList ["Foo"], .exitCode 0] := by
  decide

/-- C10: the stats-printing greenlet is spawned only inside the standalone
branch of the topology dispatch: whenever `--master` or `--slave` is set, no
run of `main` ever spawns it, `--print-stats` notwithstanding. -/
theorem C10_stats_only_standalone (o : Options) (args : List String)
    (found : Option (List String)) (locusts : List (String × PyValue)) (i : Bool)
    (h : o.master = true ∨ o.slave = true) :
    Event.spawnStats ∉ mainTrace o args found locusts i := by
  by_cases hv : o.show_version = true
  · simp [mainTrace, hv]
  · cases found with
    | none => simp [mainTrace, hv]
    | some pth =>
      by_cases hl : o.list_commands = true
      · simp [mainTrace, hv, hl]
      · cases args with
        | nil => simp [mainTrace, hv, hl]
        | cons a rest =>
          by_cases ha : a ∈ catalogNames locusts
          · rcases h with hm | hs
            · by_cases hs2 : o.slave = true <;> by_cases hw : o.no_web = true <;>
                by_cases hi : i = true <;>
                simp [mainTrace, hv, hl, ha, hm, hs2, hw, hi]
            · by_cases hm2 : o.master = true <;> by_cases hw : o.no_web = true <;>
                by_cases hi : i = true <;>
                simp [mainTrace, hv, hl, ha, hs, hm2, hw, hi]
          · simp [mainTrace, hv, hl, ha]

/-- Witness for C10: a master-mode run with `--print-stats` set still spawns
no stats greenlet. -/
theorem C10_stats_only_standalone_witness :
    Event.spawnStats ∉ mainTrace
      { defaultOptions with master := true, print_stats := true } ["Foo"]
      (some demoPath) demoLocusts false :=
  C10_stats_only_standalone _ _ _ _ _ (Or.inl rfl)

end Locust
